import Mathlib

/-!
Verification development for the backtest service in src/app.py.

The file has three layers:

1. A shallow embedding of the Python/Flask code in src/app.py: JSON request
   values with Python truthiness, an explicit `World` holding the S3 raw-data
   cache and the DynamoDB result store, and one Lean function per Flask
   handler (`fetch_data_handler`, `run_backtest_handler`,
   `store_results_handler`, `display_results_handler`), plus the strategy
   loading step of `create_and_execute_strategy`.  Third-party library
   behaviour (pandas CSV parsing, the `backtesting` package run, the Python
   module loader) is passed in as explicit function parameters, since that
   code is not part of the repository.

2. A capability/effect model of the strategy loading mechanism of
   src/app.py lines 39-60 (temp-file write followed by `exec_module` in the
   host interpreter), used to settle the sandboxing claim.

3. Spec-modelled definitions for the simulation engine and the statistics
   calculator (sections 4.3 and 4.4 of the specification).  The original
   program delegates this work to the third-party `backtesting` library, so
   the engine itself is absent from src/; these definitions follow the
   wording of the specification and are marked as such.
-/

namespace FlaskApp

/-! ## JSON values and Python truthiness -/

/-- JSON values as delivered by `request.get_json()`.  Numbers are modelled
as integers: every numeric field exercised by the claims is integral. -/
inductive JValue where
  | null
  | bool (b : Bool)
  | num (n : Int)
  | str (s : String)
  | arr (xs : List JValue)
  | obj (kvs : List (String × JValue))

/-- Python truthiness: `None`, `False`, `0`, `""`, `[]` and the empty dict
are falsy, everything else is truthy.  Models the `if not x` tests of the
handlers. -/
def falsy : JValue → Bool
  | .null => true
  | .bool b => !b
  | .num n => n == 0
  | .str s => s == ""
  | .arr xs => xs.isEmpty
  | .obj kvs => kvs.isEmpty

/-- `data.get(k)` on a parsed JSON dict: the bound value, or `None` when the
key is absent. -/
def jget (data : List (String × JValue)) (k : String) : JValue :=
  (data.lookup k).getD .null

/-- The character-level behaviour of Python `str.split(sep)` for a one-char
separator: `"".split(s) = [""]`, `"a:".split(":") = ["a", ""]`, and so on. -/
def splitChars (sep : Char) : List Char → List (List Char)
  | [] => [[]]
  | c :: cs =>
      let r := splitChars sep cs
      if c = sep then [] :: r
      else
        match r with
        | [] => [[c]]
        | g :: gs => (c :: g) :: gs

/-- Python `s.split(sep)` for a single-character separator. -/
def pysplit (sep : Char) (s : String) : List String :=
  (splitChars sep s.toList).map (fun cs => String.mk cs)

/-- Python `str(x)` restricted to the shapes the handlers feed it; the
claims only exercise the string and integer cases. -/
def pyStr : JValue → String
  | .str s => s
  | .num n => toString n
  | .bool true => "True"
  | .bool false => "False"
  | .null => "None"
  | .arr _ => "[...]"
  | .obj _ => "\x7b...\x7d"

/-- Python `float(x)` as used at src/app.py line 132.  Numbers convert;
every other shape is modelled as a conversion failure (surfaced by the
handler as its generic 500 response).  Parsing of numeric strings is not
modelled: no claim exercises it. -/
def pyFloat : JValue → Option Rat
  | .num n => some (n : Rat)
  | .bool b => some (if b then 1 else 0)
  | _ => none

mutual
/-- `json.dumps` on the modelled JSON values (src/app.py line 161), with the
default separators. -/
def dumps : JValue → String
  | .null => "null"
  | .bool true => "true"
  | .bool false => "false"
  | .num n => toString n
  | .str s => "\"" ++ s ++ "\""
  | .arr xs => "[" ++ dumpsList xs ++ "]"
  | .obj kvs => "\x7b" ++ dumpsObj kvs ++ "\x7d"

def dumpsList : List JValue → String
  | [] => ""
  | [x] => dumps x
  | x :: y :: xs => dumps x ++ ", " ++ dumpsList (y :: xs)

def dumpsObj : List (String × JValue) → String
  | [] => ""
  | [(k, v)] => "\"" ++ k ++ "\": " ++ dumps v
  | (k, v) :: y :: xs => "\"" ++ k ++ "\": " ++ dumps v ++ ", " ++ dumpsObj (y :: xs)
end

/-! ## External state: S3 cache and DynamoDB result store -/

/-- DynamoDB attribute values as built at src/app.py lines 155-162: string
attributes (`'S'`) and numeric attributes (`'N'`, carried as a decimal
string exactly as the code does with `str(capital)`). -/
inductive AttrValue where
  | S (s : String)
  | N (s : String)
deriving DecidableEq

/-- The single string held inside a DynamoDB attribute value; models
`list(v.values())[0]` at src/app.py line 191. -/
def AttrValue.payload : AttrValue → String
  | .S s => s
  | .N s => s

/-- The two external stores the app talks to: the S3 bucket `finera`
(object key to CSV text) and the DynamoDB table `BacktestResults`.  Per the
claims the result store is modelled as a key-value map keyed by
(Ticker, Period). -/
structure World where
  s3 : String → Option String
  dynamo : String × String → Option (List (String × AttrValue))

/-- `s3_client.put_object` (src/app.py line 27). -/
def World.putS3 (w : World) (k : String) (v : String) : World :=
  { w with s3 := fun q => if q = k then some v else w.s3 q }

/-- `dynamodb_client.put_item` (src/app.py line 163). -/
def World.putItem (w : World) (k : String × String) (item : List (String × AttrValue)) : World :=
  { w with dynamo := fun q => if q = k then some item else w.dynamo q }

/-- An HTTP response: status code plus JSON body. -/
structure Response where
  status : Nat
  body : JValue

/-- `jsonify({'error': msg})`. -/
def errBody (msg : String) : JValue := .obj [("error", .str msg)]

/-! ## The /fetch_data handler (src/app.py lines 85-110) -/

/-- Outcome of one `/fetch_data` request: the response, the updated stores,
and whether the external market-data provider was contacted. -/
structure FDOutcome where
  resp : Response
  world : World
  providerCalled : Bool

/-- The `/fetch_data` handler, src/app.py lines 85-110.  The parameter
`provider` models `yf.download` composed with the CSV serialization done by
`save_to_s3` (both external to the repository): it maps (ticker, start
date, end date) to the CSV text that ends up in the cache.  On a cache hit
(`load_from_s3` succeeds) the provider is not called and the world is
returned unchanged; on `NoSuchKey` the data is fetched and written to the
cache under the same key. -/
def fetch_data_handler (provider : String → String → String → String)
    (req : Option (List (String × JValue))) (w : World) : FDOutcome :=
  match req with
  | none => ⟨⟨400, errBody "No input data provided"⟩, w, false⟩
  | some data =>
    if data.isEmpty then ⟨⟨400, errBody "No input data provided"⟩, w, false⟩
    else
      let ticker := jget data "ticker"
      let period := jget data "period"
      if falsy ticker || falsy period then
        ⟨⟨400, errBody "Missing required parameters"⟩, w, false⟩
      else
        match period with
        | .str p =>
          match pysplit ':' p with
          | [start_date, end_date] =>
            let cache_key := pyStr ticker ++ "_" ++ start_date ++ "_" ++ end_date ++ ".csv"
            let okBody : JValue := .obj [("message", .str "Data fetched and cached"),
              ("ticker", ticker), ("period", period), ("cache_key", .str cache_key)]
            match w.s3 cache_key with
            | some _ => ⟨⟨200, okBody⟩, w, false⟩
            | none =>
              let csv := provider (pyStr ticker) start_date end_date
              ⟨⟨200, okBody⟩, w.putS3 cache_key csv, true⟩
          | _ => ⟨⟨500, errBody "Failed to fetch data"⟩, w, false⟩
        | _ => ⟨⟨500, errBody "Failed to fetch data"⟩, w, false⟩

/-! ## Strategy loading (src/app.py lines 39-65) -/

/-- The shape of a Python object exposed by a loaded user module, recording
the facts relevant to the Strategy Contract of the `backtesting` package: is
it a `Strategy` subclass, and does it provide the two hook methods. -/
structure PyObject where
  isStrategySubclass : Bool
  hasInitHook : Bool
  hasNextHook : Bool
deriving DecidableEq

/-- Whether an exposed object has the shape the Strategy Contract demands. -/
def satisfiesContract (o : PyObject) : Bool :=
  o.isStrategySubclass && o.hasInitHook && o.hasNextHook

/-- A loaded Python module: its attribute table. -/
structure PyModule where
  attrs : String → Option PyObject

/-- The exceptions that can escape `create_and_execute_strategy`:
`AttributeError` from the symbol check at lines 62-65, `KeyError` from the
column selection at line 67, and any exception propagating out of the
library backtest run (line 68-69), including exceptions thrown by the user
strategy itself. -/
inductive PyError where
  | attributeError (msg : String)
  | keyError (cols : List String)
  | runtimeError (msg : String)
deriving DecidableEq

/-- Lines 62-65 of src/app.py: fetch the `UserStrategy` attribute with a
`None` default and raise `AttributeError` when it is absent.  This is the
whole of the load-step verification performed by the code: any object bound
to the name, whatever its shape, is accepted. -/
def loadUserStrategy (m : PyModule) : Except PyError PyObject :=
  match m.attrs "UserStrategy" with
  | none => .error (.attributeError "UserStrategy class not found in the user strategy module")
  | some o => .ok o

/-- Python whitespace characters stripped by `str.strip` / `str.rstrip`. -/
def pySpace (c : Char) : Bool :=
  c = ' ' || c = '\t' || c = '\n' || c = '\x0d' || c = '\x0b' || c = '\x0c'

/-- Python `s.rstrip()`. -/
def pyRstrip (s : String) : String :=
  String.mk ((s.toList.reverse.dropWhile pySpace).reverse)

/-- Python `s.strip()`. -/
def pyStrip (s : String) : String :=
  String.mk ((s.toList.dropWhile pySpace).reverse.dropWhile pySpace |>.reverse)

/-- Lines 41-50 of src/app.py: strip the submitted source, right-strip each
line, and wrap it in the f-string that prepends the three fixed library
imports (and appends the trailing spaces of the f-string literal). -/
def strategyCodeWithImports (strategy_code : String) : String :=
  let cleaned := String.intercalate "\n" ((pysplit '\n' (pyStrip strategy_code)).map pyRstrip)
  "\nfrom backtesting " ++ "import Strategy\nfrom backtesting.lib " ++ "import crossover\nfrom backtesting.test " ++ "import SMA\n\n" ++ cleaned ++ "\n        "

/-! ## Capability model of the loading mechanism (src/app.py lines 52-60)

The user source is written to `/tmp/user_strategy.py` (lines 52-54) and then
imported with `importlib.util` and `spec.loader.exec_module` (lines 58-60).
`exec_module` runs the module body inside the host interpreter: no
restriction of any kind is applied, so the strategy code executes with the
full capability set of the process — it can open sockets and files, import
`boto3`, and reach the module-level `s3_client` / `dynamodb_client`
handles of src/app.py lines 19-20. -/

/-- The resources an executing piece of Python code may touch. -/
inductive Capability where
  | network
  | filesystem
  | processGlobals
deriving DecidableEq

/-- The capability set of the host interpreter process: everything. -/
def hostInterpreterCaps : Capability → Bool := fun _ => true

/-- The capability set under which the user module body runs.  From
src/app.py lines 58-60: `exec_module` is called directly, with no sandbox,
so this is exactly the host capability set. -/
def strategyExecCaps : Capability → Bool := hostInterpreterCaps

/-- The observable steps of the strategy loading mechanism. -/
inductive LoadStep where
  | fsWrite (path : String) (content : String)
  | execModule (caps : Capability → Bool)

/-- Lines 52-60 of src/app.py, as an effect trace: write the assembled
source to the fixed temp path, then execute the module body with the host
capability set. -/
def loadStrategySteps (strategy_code : String) : List LoadStep :=
  [ .fsWrite "/tmp/user_strategy.py" (strategyCodeWithImports strategy_code),
    .execModule strategyExecCaps ]

/-! ## DataFrames and the column selection at line 67 -/

/-- A pandas cell value: a finite number, or one of the non-finite floats. -/
inductive FloatVal where
  | finite (q : Rat)
  | nan
  | inf
  | ninf
deriving DecidableEq

/-- A pandas DataFrame as produced by `pd.read_csv(..., index_col=0,
parse_dates=True)`: the timestamp index plus named columns. -/
structure DataFrame where
  index : List Int
  cols : List (String × List FloatVal)
deriving DecidableEq

/-- The columns `df[['Open', 'High', 'Low', 'Close', 'Volume']]` selects at
src/app.py line 67. -/
def requiredColumns : List String := ["Open", "High", "Low", "Close", "Volume"]

/-- Line 67 of src/app.py: project the frame onto the five required
columns; pandas raises `KeyError` naming the missing columns when any is
absent.  No other validation happens here: the timestamp index and the cell
values are not inspected. -/
def selectColumns (df : DataFrame) : Except (List String) DataFrame :=
  if requiredColumns.all (fun c => (df.cols.lookup c).isSome) then
    .ok { index := df.index,
          cols := requiredColumns.filterMap (fun c => (df.cols.lookup c).map (fun v => (c, v))) }
  else
    .error (requiredColumns.filter (fun c => (df.cols.lookup c).isNone))

/-- Whether a timestamp index is strictly increasing (the validation the
specification asks the load step to perform). -/
def strictlyIncreasing : List Int → Bool
  | [] => true
  | [_] => true
  | a :: b :: r => a < b && strictlyIncreasing (b :: r)

/-- Whether every cell of the frame is a finite number (the other
validation the specification asks the load step to perform). -/
def allFinite (df : DataFrame) : Bool :=
  df.cols.all (fun c => c.2.all (fun v => match v with | .finite _ => true | _ => false))

/-! ## create_and_execute_strategy (src/app.py lines 39-83) -/

/-- The arguments handed to the `Backtest` constructor at src/app.py
line 68: the starting cash and the commission rate.  The commission is the
literal `.002` of the source; it is not read from anywhere else. -/
structure BacktestConfig where
  cash : Rat
  commission : Rat
deriving DecidableEq

/-- `create_and_execute_strategy` (src/app.py lines 39-83).  `modOf` models
the Python loader: it maps the assembled module source to the module object
that executing it produces.  `runBT` models `Backtest(...).run()` of the
third-party `backtesting` library together with the result-dict assembly of
lines 71-78: it receives the cash, the commission rate, the projected frame
and the strategy class, and either returns the results value or throws.
The second component of the result records the `BacktestConfig` passed to
the `Backtest` constructor, `none` when line 68 is never reached.  This
variant types the executed user code as effect-free on the stores; the
variant `create_and_execute_strategy_eff` below threads the store state
through the user code and is the faithful model where store effects are
concerned (see C1 and C9). -/
def create_and_execute_strategy (modOf : String → PyModule)
    (runBT : Rat → Rat → DataFrame → PyObject → Except String JValue)
    (strategy_code : String) (df : DataFrame) (initial_capital : Rat) :
    Except PyError JValue × Option BacktestConfig :=
  let m := modOf (strategyCodeWithImports strategy_code)
  match loadUserStrategy m with
  | .error e => (.error e, none)
  | .ok us =>
    match selectColumns df with
    | .error cols => (.error (.keyError cols), none)
    | .ok df2 =>
      let cfg : BacktestConfig := { cash := initial_capital, commission := 2 / 1000 }
      match runBT cfg.cash cfg.commission df2 us with
      | .error msg => (.error (.runtimeError msg), some cfg)
      | .ok results => (.ok results, some cfg)

/-! ## The /run_backtest handler (src/app.py lines 112-137) -/

/-- Outcome of one `/run_backtest` request: the response, the (unchanged)
stores, whether the cache was read, the `BacktestConfig` passed to the
`Backtest` constructor if it was reached, and whether the user strategy
module was executed. -/
structure RBOutcome where
  resp : Response
  world : World
  cacheRead : Bool
  configUsed : Option BacktestConfig
  strategyExecuted : Bool

/-- The `/run_backtest` handler, src/app.py lines 112-137.  `parseCSV`
models `pd.read_csv` on the cached text (line 129-130); `modOf` and `runBT`
are as in `create_and_execute_strategy`.  Every exception — missing cache
key, parse failure, load failure, strategy failure — is caught by the
blanket `except` and surfaced as the same 500 response. -/
def run_backtest_handler (parseCSV : String → Option DataFrame)
    (modOf : String → PyModule)
    (runBT : Rat → Rat → DataFrame → PyObject → Except String JValue)
    (req : Option (List (String × JValue))) (w : World) : RBOutcome :=
  match req with
  | none => ⟨⟨400, errBody "No input data provided"⟩, w, false, none, false⟩
  | some data =>
    if data.isEmpty then ⟨⟨400, errBody "No input data provided"⟩, w, false, none, false⟩
    else
      let ticker := jget data "ticker"
      let period := jget data "period"
      let cache_key := jget data "cache_key"
      let capital := jget data "capital"
      let strategy_code := jget data "strategy_code"
      if falsy ticker || falsy period || falsy cache_key || falsy capital || falsy strategy_code then
        ⟨⟨400, errBody "Missing required parameters"⟩, w, false, none, false⟩
      else
        match w.s3 (pyStr cache_key) with
        | none => ⟨⟨500, errBody "Failed to run backtest"⟩, w, true, none, false⟩
        | some csv =>
          match parseCSV csv with
          | none => ⟨⟨500, errBody "Failed to run backtest"⟩, w, true, none, false⟩
          | some df =>
            match pyFloat capital with
            | none => ⟨⟨500, errBody "Failed to run backtest"⟩, w, true, none, false⟩
            | some cap =>
              match create_and_execute_strategy modOf runBT (pyStr strategy_code) df cap with
              | (.error _, cfg) => ⟨⟨500, errBody "Failed to run backtest"⟩, w, true, cfg, true⟩
              | (.ok results, cfg) =>
                ⟨⟨200, .obj [("message", .str "Backtest completed"), ("results", results),
                  ("ticker", ticker), ("period", period), ("capital", capital)]⟩,
                  w, true, cfg, true⟩

/-! ## Effect-aware variant of the run_backtest pipeline

`create_and_execute_strategy` and `run_backtest_handler` above type the
external code (`modOf`, `runBT`) as effect-free on `World`.  That is
adequate for claims about the handler's control flow, but it erases the
path the sandboxing analysis establishes: per C1, `exec_module` runs the
user module body — and later, through the library run, the strategy hooks —
with the full host capability set, including the module-level store
clients.  The variant below is therefore the faithful model where the
external stores are concerned: it threads the `World` through both the
module execution and the library run, so user code may transform the
stores. -/

/-- `create_and_execute_strategy` with the store state threaded through the
executed user code.  `execModule` models `exec_module` at src/app.py line
60: it maps the assembled module source and the current stores to the
stores after the module body ran (which may include writes made through
`s3_client` / `dynamodb_client`, see C1) together with the resulting
module object.  `runBT` likewise threads the stores through
`Backtest(...).run()`, whose strategy hooks are user code as well.  The
steps and their order are exactly those of lines 39-83. -/
def create_and_execute_strategy_eff
    (execModule : String → World → World × PyModule)
    (runBT : Rat → Rat → DataFrame → PyObject → World → Except String JValue × World)
    (strategy_code : String) (df : DataFrame) (initial_capital : Rat) (w : World) :
    (Except PyError JValue × Option BacktestConfig) × World :=
  let ew := execModule (strategyCodeWithImports strategy_code) w
  match loadUserStrategy ew.2 with
  | .error e => ((.error e, none), ew.1)
  | .ok us =>
    match selectColumns df with
    | .error cols => ((.error (.keyError cols), none), ew.1)
    | .ok df2 =>
      let cfg : BacktestConfig := { cash := initial_capital, commission := 2 / 1000 }
      match runBT cfg.cash cfg.commission df2 us ew.1 with
      | (.error msg, w3) => ((.error (.runtimeError msg), some cfg), w3)
      | (.ok results, w3) => ((.ok results, some cfg), w3)

/-- The `/run_backtest` handler with the store state threaded through the
executed user code, mirroring `run_backtest_handler` branch for branch.
The handler code itself (src/app.py lines 112-137) performs a single
`get_object` and no write; the only component that can transform the
stores is the user code run inside `create_and_execute_strategy_eff`. -/
def run_backtest_handler_eff (parseCSV : String → Option DataFrame)
    (execModule : String → World → World × PyModule)
    (runBT : Rat → Rat → DataFrame → PyObject → World → Except String JValue × World)
    (req : Option (List (String × JValue))) (w : World) : RBOutcome :=
  match req with
  | none => ⟨⟨400, errBody "No input data provided"⟩, w, false, none, false⟩
  | some data =>
    if data.isEmpty then ⟨⟨400, errBody "No input data provided"⟩, w, false, none, false⟩
    else
      let ticker := jget data "ticker"
      let period := jget data "period"
      let cache_key := jget data "cache_key"
      let capital := jget data "capital"
      let strategy_code := jget data "strategy_code"
      if falsy ticker || falsy period || falsy cache_key || falsy capital || falsy strategy_code then
        ⟨⟨400, errBody "Missing required parameters"⟩, w, false, none, false⟩
      else
        match w.s3 (pyStr cache_key) with
        | none => ⟨⟨500, errBody "Failed to run backtest"⟩, w, true, none, false⟩
        | some csv =>
          match parseCSV csv with
          | none => ⟨⟨500, errBody "Failed to run backtest"⟩, w, true, none, false⟩
          | some df =>
            match pyFloat capital with
            | none => ⟨⟨500, errBody "Failed to run backtest"⟩, w, true, none, false⟩
            | some cap =>
              match create_and_execute_strategy_eff execModule runBT (pyStr strategy_code) df cap w with
              | ((.error _, cfg), w2) => ⟨⟨500, errBody "Failed to run backtest"⟩, w2, true, cfg, true⟩
              | ((.ok results, cfg), w2) =>
                ⟨⟨200, .obj [("message", .str "Backtest completed"), ("results", results),
                  ("ticker", ticker), ("period", period), ("capital", capital)]⟩,
                  w2, true, cfg, true⟩

/-! ## The /store_results handler (src/app.py lines 139-168) -/

/-- The `/store_results` handler, src/app.py lines 139-168.  On success it
writes the item of lines 155-162 into the result store under the
(Ticker, Period) key: `Capital` is stored as the decimal string
`str(capital)` and `Results` as the serialized `json.dumps(results)`. -/
def store_results_handler (req : Option (List (String × JValue))) (w : World) :
    Response × World :=
  match req with
  | none => (⟨400, errBody "No input data provided"⟩, w)
  | some body =>
    if body.isEmpty then (⟨400, errBody "No input data provided"⟩, w)
    else
      let ticker := jget body "ticker"
      let period := jget body "period"
      let capital := jget body "capital"
      let results := jget body "results"
      if falsy ticker || falsy period || falsy capital || falsy results then
        (⟨400, errBody "Missing required parameters"⟩, w)
      else
        match period with
        | .str p =>
          match pysplit ':' p with
          | [start_date, end_date] =>
            let item : List (String × AttrValue) :=
              [("Ticker", .S (pyStr ticker)), ("Period", .S p),
               ("StartDate", .S start_date), ("EndDate", .S end_date),
               ("Capital", .N (pyStr capital)), ("Results", .S (dumps results))]
            (⟨200, .obj [("message", .str "Results stored in DynamoDB")]⟩,
             w.putItem (pyStr ticker, p) item)
          | _ => (⟨500, errBody "Failed to store results"⟩, w)
        | _ => (⟨500, errBody "Failed to store results"⟩, w)

/-! ## The /display_results handler (src/app.py lines 170-197) -/

/-- The `/display_results` handler, src/app.py lines 170-197.  Looks the
item up under the (Ticker, Period) key; on a hit it flattens each attribute
to its payload string (line 191) and returns the item, otherwise 404. -/
def display_results_handler (req : Option (List (String × JValue))) (w : World) :
    Response × World :=
  match req with
  | none => (⟨400, errBody "No input data provided"⟩, w)
  | some data =>
    if data.isEmpty then (⟨400, errBody "No input data provided"⟩, w)
    else
      let ticker := jget data "ticker"
      let period := jget data "period"
      if falsy ticker || falsy period then
        (⟨400, errBody "Missing required parameters"⟩, w)
      else
        match w.dynamo (pyStr ticker, pyStr period) with
        | some item =>
          (⟨200, .obj (item.map (fun p => (p.1, JValue.str p.2.payload)))⟩, w)
        | none => (⟨404, errBody "Item not found"⟩, w)

/-! ## Spec-modelled execution simulator (specification section 4.3)

The repository delegates the whole simulation to the third-party
`backtesting` library (src/app.py line 68-69), so no replay loop exists in
src/.  The definitions below are modelled from the specification: section
4.3 fixes the initial state, the per-bar transition (fill queued orders at
the bar open with commission `fill_price * quantity * rate`, rejecting
orders whose required cash exceeds the available cash; then invoke
`on_bar`; then record the equity at the bar close), and the equity-curve
invariants. -/

/-- Modelled from the spec: one OHLCV bar (specification section 3). -/
structure Bar where
  ts : Int
  op : Rat
  high : Rat
  low : Rat
  close : Rat
  volume : Rat
deriving DecidableEq

/-- Modelled from the spec: an order emitted by a strategy callback
(specification section 3). -/
inductive Direction where
  | buy
  | sell
deriving DecidableEq

/-- Modelled from the spec: `{direction, size, requested_at_bar_index}`. -/
structure Order where
  direction : Direction
  size : Rat
  requested_at : Nat
deriving DecidableEq

/-- Modelled from the spec: the Strategy Contract (specification section
4.2).  `init` is the pre-replay hook producing the strategy's internal
state, and `on_bar` maps that state, the bar index and the bar history up
to and including the current bar to the new state plus the orders queued
for the next bar open. -/
structure Strategy (σ : Type) where
  init : σ
  on_bar : σ → Nat → List Bar → σ × List Order

/-- Modelled from the spec: the account and bookkeeping state threaded
through the replay (specification sections 3 and 4.3). -/
structure SimState (σ : Type) where
  cash : Rat
  posQty : Rat
  avgEntry : Rat
  pending : List Order
  stratState : σ
  curve : List (Int × Rat)

/-- Modelled from the spec: fill one queued order at the given open price
(specification section 4.3 step (a)).  A buy whose required cash
(`price * size` plus the commission `price * size * rate`) exceeds the
available cash is rejected as a no-op; a sell is capped at the held
quantity and rejected if the commission would drive cash negative. -/
def fillOrder (rate price : Rat) (st : SimState σ) (o : Order) : SimState σ :=
  match o.direction with
  | .buy =>
    let cost := price * o.size + price * o.size * rate
    if cost ≤ st.cash then
      { st with
        cash := st.cash - cost,
        posQty := st.posQty + o.size,
        avgEntry := (st.avgEntry * st.posQty + price * o.size) / (st.posQty + o.size) }
    else st
  | .sell =>
    let q := min o.size st.posQty
    let proceeds := price * q - price * q * rate
    if 0 ≤ st.cash + proceeds then
      { st with cash := st.cash + proceeds, posQty := st.posQty - q }
    else st

/-- Modelled from the spec: apply every order queued from the previous bar
at the current open and empty the queue. -/
def applyFills (rate price : Rat) (st : SimState σ) : SimState σ :=
  { st.pending.foldl (fillOrder rate price) st with pending := [] }

/-- Modelled from the spec: the per-bar transition for bar index `i ≥ 1`
(specification section 4.3): fill, then decide, then record the equity
`cash + posQty * close` at the bar timestamp. -/
def stepBar (strat : Strategy σ) (rate : Rat) (i : Nat) (hist : List Bar) (b : Bar)
    (st : SimState σ) : SimState σ :=
  let stF := applyFills rate b.op st
  let dec := strat.on_bar stF.stratState i (hist ++ [b])
  let stD := { stF with stratState := dec.1, pending := dec.2 }
  { stD with curve := stD.curve ++ [(b.ts, stD.cash + stD.posQty * b.close)] }

/-- Modelled from the spec: replay the remaining bars in order, threading
the bar index and the accumulated history. -/
def runBars (strat : Strategy σ) (rate : Rat) :
    List Bar → Nat → List Bar → SimState σ → SimState σ
  | [], _, _, st => st
  | b :: bs, i, hist, st =>
    runBars strat rate bs (i + 1) (hist ++ [b]) (stepBar strat rate i hist b st)

/-- Modelled from the spec: run a whole backtest (specification section
4.3).  The initial state holds `initial_capital` in cash, a flat position,
and the one-entry equity curve `[(bar[0].timestamp, initial_capital)]`;
bars `1 .. N-1` are then replayed.  Returns the equity curve. -/
def simulate (strat : Strategy σ) (bars : List Bar) (initial_capital rate : Rat) :
    List (Int × Rat) :=
  match bars with
  | [] => []
  | b0 :: rest =>
    (runBars strat rate rest 1 [b0]
      ⟨initial_capital, 0, 0, [], strat.init, [(b0.ts, initial_capital)]⟩).curve

/-! ## Spec-modelled statistics calculator (specification section 4.4)

The statistics, too, live in the third-party library (the source merely
copies `stats.get('Beta', 'N/A')` and friends at src/app.py lines 71-78),
so `beta_or_na` is modelled from the specification: covariance of the
strategy returns with the benchmark returns over the variance of the
benchmark returns when the benchmark has at least two points and non-zero
variance, and an explicit "not available" (here: `none`) otherwise. -/

/-- Modelled from the spec: arithmetic mean (0 for the empty list, since in
`Rat` division by zero yields 0). -/
def mean (xs : List Rat) : Rat := xs.sum / (xs.length : Rat)

/-- Modelled from the spec: population variance. -/
def variance (xs : List Rat) : Rat :=
  ((xs.map (fun x => (x - mean xs) ^ 2)).sum) / (xs.length : Rat)

/-- Modelled from the spec: population covariance of two paired series. -/
def covariance (xs ys : List Rat) : Rat :=
  (((xs.zip ys).map (fun p => (p.1 - mean xs) * (p.2 - mean ys))).sum) /
    (((xs.zip ys).length : Nat) : Rat)

/-- Modelled from the spec: per-step simple returns of a value series. -/
def returnsOf : List Rat → List Rat
  | x :: y :: rest => (y / x - 1) :: returnsOf (y :: rest)
  | _ => []

/-- Modelled from the spec: `beta_or_na` (specification section 4.4).
`none` is the explicit "not available" report. -/
def beta_or_na (equity bench : List Rat) : Option Rat :=
  let sr := returnsOf equity
  let br := returnsOf bench
  if 2 ≤ bench.length ∧ variance br ≠ 0 then
    some (covariance sr br / variance br)
  else none

/-! ## Helper lemmas -/

theorem jget_fd_ticker (x y : JValue) :
    jget [("ticker", x), ("period", y)] "ticker" = x := rfl

theorem jget_fd_period (x y : JValue) :
    jget [("ticker", x), ("period", y)] "period" = y := rfl


/-! ## Claim C8: falsy required field short-circuits /run_backtest -/

/-- C8: whenever any of the five required fields of a /run_backtest request
is falsy in the Python sense (absent, `None`, `0`, the empty string, an
empty collection — in particular `capital = 0`), the handler answers
HTTP 400 with the error `Missing required parameters`, and neither reads
the cache nor executes any strategy code. -/
theorem C8_missing_parameters (parseCSV : String → Option DataFrame)
    (modOf : String → PyModule)
    (runBT : Rat → Rat → DataFrame → PyObject → Except String JValue)
    (data : List (String × JValue)) (w : World)
    (hne : data ≠ [])
    (hfal : (falsy (jget data "ticker") || falsy (jget data "period") ||
      falsy (jget data "cache_key") || falsy (jget data "capital") ||
      falsy (jget data "strategy_code")) = true) :
    (run_backtest_handler parseCSV modOf runBT (some data) w).resp.status = 400 ∧
    (run_backtest_handler parseCSV modOf runBT (some data) w).resp.body =
      errBody "Missing required parameters" ∧
    (run_backtest_handler parseCSV modOf runBT (some data) w).cacheRead = false ∧
    (run_backtest_handler parseCSV modOf runBT (some data) w).strategyExecuted = false ∧
    (run_backtest_handler parseCSV modOf runBT (some data) w).world = w := by
  cases data with
  | nil => exact absurd rfl hne
  | cons a as =>
    unfold run_backtest_handler
    simp only [List.isEmpty_cons, Bool.false_eq_true, if_false, hfal, if_true]
    simp

/-- C8 witness: a concrete request whose `capital` field is the number 0
(all other fields present and truthy) is rejected with 400 before any cache
read or strategy execution. -/
theorem C8_missing_parameters_witness :
    ([(("ticker" : String), JValue.str "AAPL"), ("period", JValue.str "2020-01-01:2021-01-01"),
      ("cache_key", JValue.str "AAPL_2020-01-01_2021-01-01.csv"),
      ("capital", JValue.num 0), ("strategy_code", JValue.str "class UserStrategy: pass")] ≠
        ([] : List (String × JValue))) ∧
    (run_backtest_handler (fun _ => none) (fun _ => ⟨fun _ => none⟩) (fun _ _ _ _ => .error "")
      (some [(("ticker" : String), JValue.str "AAPL"), ("period", JValue.str "2020-01-01:2021-01-01"),
        ("cache_key", JValue.str "AAPL_2020-01-01_2021-01-01.csv"),
        ("capital", JValue.num 0), ("strategy_code", JValue.str "class UserStrategy: pass")])
      ⟨fun _ => none, fun _ => none⟩).resp.status = 400 := by
  refine ⟨by simp, ?_⟩
  exact (C8_missing_parameters (fun _ => none) (fun _ => ⟨fun _ => none⟩) (fun _ _ _ _ => .error "")
    _ ⟨fun _ => none, fun _ => none⟩ (by simp) (by decide)).1

/-! ## Claim C7: cache-aside in /fetch_data -/

/-- C7: for a well-formed /fetch_data request, when the derived cache key
is absent from the raw-data cache, the handler contacts the market-data
provider and writes the fetched data into the cache under that key, so a
subsequent get of the same key succeeds; when the key is present, the
provider is not contacted and the whole world (in particular the cache) is
unchanged. -/
theorem C7_cache_aside (provider : String → String → String → String)
    (w : World) (t p start_date end_date : String)
    (ht : falsy (.str t) = false) (hp : falsy (.str p) = false)
    (hsplit : pysplit ':' p = [start_date, end_date]) :
    (w.s3 (t ++ "_" ++ start_date ++ "_" ++ end_date ++ ".csv") = none →
      (fetch_data_handler provider
        (some [("ticker", JValue.str t), ("period", JValue.str p)]) w).providerCalled = true ∧
      (fetch_data_handler provider
        (some [("ticker", JValue.str t), ("period", JValue.str p)]) w).world.s3
          (t ++ "_" ++ start_date ++ "_" ++ end_date ++ ".csv") =
        some (provider t start_date end_date)) ∧
    (∀ v, w.s3 (t ++ "_" ++ start_date ++ "_" ++ end_date ++ ".csv") = some v →
      (fetch_data_handler provider
        (some [("ticker", JValue.str t), ("period", JValue.str p)]) w).providerCalled = false ∧
      (fetch_data_handler provider
        (some [("ticker", JValue.str t), ("period", JValue.str p)]) w).world = w) := by
  unfold fetch_data_handler
  simp only [jget_fd_ticker, jget_fd_period, List.isEmpty_cons, Bool.false_eq_true, if_false,
    ht, hp, Bool.or_self, hsplit]
  constructor
  · intro hmiss
    simp only [pyStr, hmiss, World.putS3]
    simp
  · intro v hhit
    simp only [pyStr, hhit]
    simp

/-- C7 witness: with an empty cache, fetching `("AAPL", "2020:2021")`
contacts the provider and populates the key `AAPL_2020_2021.csv`; run again
on the resulting world, the provider is not contacted and the world is
unchanged. -/
theorem C7_cache_aside_witness :
    (falsy (.str "AAPL") = false ∧ pysplit ':' "2020:2021" = ["2020", "2021"]) ∧
    ((fetch_data_handler (fun _ _ _ => "csvdata")
        (some [("ticker", JValue.str "AAPL"), ("period", JValue.str "2020:2021")])
        ⟨fun _ => none, fun _ => none⟩).providerCalled = true ∧
      (fetch_data_handler (fun _ _ _ => "csvdata")
        (some [("ticker", JValue.str "AAPL"), ("period", JValue.str "2020:2021")])
        ⟨fun _ => none, fun _ => none⟩).world.s3 ("AAPL" ++ "_" ++ "2020" ++ "_" ++ "2021" ++ ".csv") =
        some ((fun _ _ _ => "csvdata") "AAPL" "2020" "2021")) := by
  refine ⟨⟨by decide, by decide⟩, ?_⟩
  exact (C7_cache_aside (fun _ _ _ => "csvdata") ⟨fun _ => none, fun _ => none⟩
    "AAPL" "2020:2021" "2020" "2021" (by decide) (by decide) (by decide)).1 rfl

/-! ## Claim C1: the strategy code is not sandboxed -/

/-- C1: evaluation of the loading mechanism of src/app.py lines 39-60 at an
arbitrary strategy source.  The strategy module body executes with the full
host capability set — network, filesystem and process globals (which
include the cache client `s3_client` and the result-store client
`dynamodb_client`) are all reachable — and the loader itself starts by
writing the user source to the fixed filesystem path
`/tmp/user_strategy.py`.  This contradicts the claimed security boundary:
the code gives the strategy far more than the read-only bar history. -/
theorem C1_no_sandbox (strategy_code : String) :
    strategyExecCaps .network = true ∧
    strategyExecCaps .filesystem = true ∧
    strategyExecCaps .processGlobals = true ∧
    (loadStrategySteps strategy_code).head? =
      some (.fsWrite "/tmp/user_strategy.py" (strategyCodeWithImports strategy_code)) :=
  ⟨rfl, rfl, rfl, rfl⟩

/-! ## Claim C2: what the load step actually checks -/

/-- An exposed `UserStrategy` object whose shape does not satisfy the
Strategy Contract: not a `Strategy` subclass and lacking both hooks. -/
def oBad : PyObject := ⟨false, false, false⟩

/-- A loaded module exposing the mismatching `UserStrategy` object. -/
def mBad : PyModule := ⟨fun n => if n = "UserStrategy" then some oBad else none⟩

/-- A loaded module exposing no `UserStrategy` at all. -/
def mAbsent : PyModule := ⟨fun _ => none⟩

/-- C2 counterexample: a module exposing a `UserStrategy` whose shape
mismatches the Strategy Contract is accepted by the load step — the claim
that such a load fails with `StrategyLoadError` is false on the code, which
only tests the attribute for presence (src/app.py lines 62-65). -/
theorem C2_counterexample :
    satisfiesContract oBad = false ∧ loadUserStrategy mBad = .ok oBad :=
  ⟨rfl, rfl⟩

/-- C2 (amended): when the loaded module does not expose `UserStrategy` the
load step raises `AttributeError` (there is no dedicated `StrategyLoadError`
type), and any exposed `UserStrategy` object is accepted without a shape
check; failures thrown later by the strategy during the library run
propagate as ordinary exceptions, and the handler folds both kinds into the
same generic 500 response. -/
theorem C2_load_step (m : PyModule) :
    (m.attrs "UserStrategy" = none →
      loadUserStrategy m =
        .error (.attributeError "UserStrategy class not found in the user strategy module")) ∧
    (∀ o, m.attrs "UserStrategy" = some o → loadUserStrategy m = .ok o) := by
  constructor
  · intro h; unfold loadUserStrategy; rw [h]
  · intro o h; unfold loadUserStrategy; rw [h]

/-- C2 witness: the two behaviours of the load step at concrete modules. -/
theorem C2_load_step_witness :
    (mAbsent.attrs "UserStrategy" = none ∧ mBad.attrs "UserStrategy" = some oBad) ∧
    loadUserStrategy mAbsent =
      .error (.attributeError "UserStrategy class not found in the user strategy module") ∧
    loadUserStrategy mBad = .ok oBad :=
  ⟨⟨rfl, rfl⟩, (C2_load_step mAbsent).1 rfl, (C2_load_step mBad).2 oBad rfl⟩

/-! ## Claim C3: the commission rate is not configurable -/

/-- A frame with all five required columns, used to drive the handler to a
completed run. -/
def dfGood : DataFrame :=
  ⟨[1, 2],
   [("Open", [.finite 1, .finite 1]), ("High", [.finite 1, .finite 1]),
    ("Low", [.finite 1, .finite 1]), ("Close", [.finite 1, .finite 1]),
    ("Volume", [.finite 0, .finite 0])]⟩

/-- An exposed `UserStrategy` whose shape satisfies the contract. -/
def oGood : PyObject := ⟨true, true, true⟩

/-- A loaded module exposing a conforming `UserStrategy`. -/
def mGood : PyModule := ⟨fun n => if n = "UserStrategy" then some oGood else none⟩

/-- A /run_backtest request that explicitly carries a `commission_rate`
field alongside the five fields the handler reads. -/
def reqWithRate : List (String × JValue) :=
  [("ticker", .str "AAPL"), ("period", .str "2020:2021"),
   ("cache_key", .str "AAPL_2020_2021.csv"), ("capital", .num 1000),
   ("strategy_code", .str "class UserStrategy(Strategy): pass"),
   ("commission_rate", .num 1)]

/-- A world whose cache holds the requested key. -/
def wCached : World :=
  ⟨fun k => if k = "AAPL_2020_2021.csv" then some "cached csv" else none, fun _ => none⟩

/-- Helper: the config handed to the `Backtest` constructor, when it is
built at all, always carries the hard-coded commission rate `.002` of
src/app.py line 68. -/
theorem create_and_execute_commission (modOf : String → PyModule)
    (runBT : Rat → Rat → DataFrame → PyObject → Except String JValue)
    (code : String) (df : DataFrame) (cap : Rat) :
    (create_and_execute_strategy modOf runBT code df cap).2 = none ∨
    (create_and_execute_strategy modOf runBT code df cap).2 = some ⟨cap, 2 / 1000⟩ := by
  unfold create_and_execute_strategy
  dsimp only
  split
  · exact .inl rfl
  · split
    · exact .inl rfl
    · split
      · exact .inr rfl
      · exact .inr rfl

/-- C3 counterexample: a request carrying `commission_rate = 1` still runs
the backtest with commission rate `.002` — the handler reads only the five
fields ticker/period/cache_key/capital/strategy_code, so the caller cannot
configure the rate, contradicting the claim that `run_backtest` accepts a
`commission_rate` parameter with 0.002 used only as a default. -/
theorem C3_counterexample :
    jget reqWithRate "commission_rate" = .num 1 ∧
    (run_backtest_handler (fun _ => some dfGood) (fun _ => mGood)
        (fun _ _ _ _ => .ok (.str "stats")) (some reqWithRate) wCached).configUsed =
      some ⟨1000, 2 / 1000⟩ ∧
    ((2 : Rat) / 1000) ≠ 1 := by
  refine ⟨rfl, rfl, by norm_num⟩

/-- C3 (amended): `run_backtest` exposes no commission-rate parameter:
whatever the request contains, every `Backtest` construction uses the fixed
rate 0.002; and (in the spec-modelled simulator) an accepted buy fill
deducts exactly `fill_price * quantity + fill_price * quantity * rate` from
cash, i.e. the commission charged at the fill is
`fill_price * quantity * rate`. -/
theorem C3_fixed_commission {σ : Type} (parseCSV : String → Option DataFrame)
    (modOf : String → PyModule)
    (runBT : Rat → Rat → DataFrame → PyObject → Except String JValue)
    (req : Option (List (String × JValue))) (w : World)
    (rate price : Rat) (st : SimState σ) (o : Order)
    (hdir : o.direction = .buy)
    (hcash : price * o.size + price * o.size * rate ≤ st.cash) :
    ((run_backtest_handler parseCSV modOf runBT req w).configUsed = none ∨
      ∃ c, (run_backtest_handler parseCSV modOf runBT req w).configUsed = some ⟨c, 2 / 1000⟩) ∧
    (fillOrder rate price st o).cash = st.cash - (price * o.size + price * o.size * rate) := by
  constructor
  · cases req with
    | none => exact .inl rfl
    | some data =>
      unfold run_backtest_handler
      dsimp only
      split
      · exact .inl rfl
      · split
        · exact .inl rfl
        · split
          · exact .inl rfl
          · split
            · exact .inl rfl
            · split
              · exact .inl rfl
              · rename_i cap _
                rcases create_and_execute_commission modOf runBT
                  (pyStr (jget data "strategy_code")) _ cap with hc | hc <;>
                  split <;> rename_i heq <;> rw [heq] at hc <;> simp at hc <;> simp [hc]
  · unfold fillOrder
    rw [hdir]
    dsimp only
    rw [if_pos hcash]

unseal Rat.add Rat.mul Rat.inv in
/-- C3 witness: a concrete accepted buy — 10 units at price 100 with rate
0.002 and 10000 cash — leaves `10000 - (1000 + 2)` in cash, and the handler
instance is the one of the counterexample environment. -/
theorem C3_fixed_commission_witness :
    ((Order.direction ⟨.buy, 10, 0⟩ = .buy) ∧
      ((100 : Rat) * 10 + 100 * 10 * (2 / 1000) ≤ 10000)) ∧
    (fillOrder (2 / 1000) 100 ⟨10000, 0, 0, [], (), []⟩ ⟨.buy, 10, 0⟩).cash =
      10000 - ((100 : Rat) * 10 + 100 * 10 * (2 / 1000)) :=
  ⟨⟨rfl, by decide⟩,
    (C3_fixed_commission (σ := Unit) (fun _ => some dfGood) (fun _ => mGood)
      (fun _ _ _ _ => .ok (.str "stats")) (some reqWithRate) wCached
      (2 / 1000) 100 ⟨10000, 0, 0, [], (), []⟩ ⟨.buy, 10, 0⟩ rfl (by decide)).2⟩

/-! ## Claim C9: store writes during /run_backtest -/

/-- Helper: when the executed user code is store-effect-free — the module
body does not transform the stores and neither does the library run —
`create_and_execute_strategy_eff` returns the stores unchanged. -/
theorem create_and_execute_eff_world
    (execModule : String → World → World × PyModule)
    (runBT : Rat → Rat → DataFrame → PyObject → World → Except String JValue × World)
    (strategy_code : String) (df : DataFrame) (cap : Rat) (w : World)
    (he : ∀ s w0, (execModule s w0).1 = w0)
    (hr : ∀ c r d us w0, (runBT c r d us w0).2 = w0) :
    (create_and_execute_strategy_eff execModule runBT strategy_code df cap w).2 = w := by
  unfold create_and_execute_strategy_eff
  dsimp only
  rw [he (strategyCodeWithImports strategy_code) w]
  split
  · rfl
  · split
    · rfl
    · split <;> rename_i w3 heqr <;>
        exact (congrArg Prod.snd heqr).symm.trans (hr _ _ _ _ _)

/-- C9 counterexample: because the strategy module body runs unsandboxed
(C1), a strategy whose module body writes through the process-global store
clients changes both external stores during the handling of a single
/run_backtest request.  Concretely: starting from a world whose cache lacks
`exfil.csv` and whose result store lacks the key `("X", "Y")`, a request
whose strategy module writes both leaves the cache holding `exfil.csv` and
the result store holding `("X", "Y")` — refuting the claim that both
stores are unchanged by the run regardless of success or failure. -/
theorem C9_counterexample :
    wCached.s3 "exfil.csv" = none ∧
    wCached.dynamo ("X", "Y") = none ∧
    (run_backtest_handler_eff (fun _ => some dfGood)
        (fun _ w => ((w.putS3 "exfil.csv" "stolen").putItem ("X", "Y") [], mGood))
        (fun _ _ _ _ w => (.ok (.str "stats"), w))
        (some reqWithRate) wCached).world.s3 "exfil.csv" = some "stolen" ∧
    (run_backtest_handler_eff (fun _ => some dfGood)
        (fun _ w => ((w.putS3 "exfil.csv" "stolen").putItem ("X", "Y") [], mGood))
        (fun _ _ _ _ w => (.ok (.str "stats"), w))
        (some reqWithRate) wCached).world.dynamo ("X", "Y") = some [] := by
  refine ⟨by decide, by decide, by decide, by decide⟩

/-- C9 (amended): the handler's own code never writes to either store — it
only reads the cached object for the given key.  In the effect-aware model
this is the statement that the handler adds no store effects of its own:
whenever strategy code is not executed the world is returned unchanged, and
whenever the executed user code (module body and library run alike) is
store-effect-free the world is unchanged on every path, success or failure;
persistence happens only via the separate /store_results handler.  What the
original claim misses is exactly the unsandboxed strategy effect shown by
`C9_counterexample` and analysed in C1. -/
theorem C9_handler_no_own_writes (parseCSV : String → Option DataFrame)
    (execModule : String → World → World × PyModule)
    (runBT : Rat → Rat → DataFrame → PyObject → World → Except String JValue × World)
    (req : Option (List (String × JValue))) (w : World) :
    ((run_backtest_handler_eff parseCSV execModule runBT req w).strategyExecuted = false →
      (run_backtest_handler_eff parseCSV execModule runBT req w).world = w) ∧
    ((∀ s w0, (execModule s w0).1 = w0) →
      (∀ c r d us w0, (runBT c r d us w0).2 = w0) →
      (run_backtest_handler_eff parseCSV execModule runBT req w).world = w) := by
  cases req with
  | none => exact ⟨fun _ => rfl, fun _ _ => rfl⟩
  | some data =>
    unfold run_backtest_handler_eff
    dsimp only
    split
    · exact ⟨fun _ => rfl, fun _ _ => rfl⟩
    · split
      · exact ⟨fun _ => rfl, fun _ _ => rfl⟩
      · split
        · exact ⟨fun _ => rfl, fun _ _ => rfl⟩
        · split
          · exact ⟨fun _ => rfl, fun _ _ => rfl⟩
          · split
            · exact ⟨fun _ => rfl, fun _ _ => rfl⟩
            · split <;> rename_i w2 heq <;>
                exact ⟨fun h => Bool.noConfusion h, fun he hr =>
                  (congrArg Prod.snd heq).symm.trans
                    (create_and_execute_eff_world _ _ _ _ _ _ he hr)⟩

/-- C9 witness: with store-effect-free user code the world is unchanged
both on a completed 200 run and on a rejected request (where no strategy
code runs at all). -/
theorem C9_handler_no_own_writes_witness :
    ((∀ s w0, ((fun (_ : String) (w1 : World) => (w1, mGood)) s w0).1 = w0) ∧
      (∀ c r d us w0,
        ((fun (_ : Rat) (_ : Rat) (_ : DataFrame) (_ : PyObject) (w1 : World) =>
          ((Except.ok (JValue.str "stats") : Except String JValue), w1)) c r d us w0).2 = w0) ∧
      (run_backtest_handler_eff (fun _ => some dfGood) (fun _ w1 => (w1, mGood))
        (fun _ _ _ _ w1 => (.ok (.str "stats"), w1))
        (some [("ticker", JValue.str "A")]) wCached).strategyExecuted = false) ∧
    (run_backtest_handler_eff (fun _ => some dfGood) (fun _ w1 => (w1, mGood))
        (fun _ _ _ _ w1 => (.ok (.str "stats"), w1)) (some reqWithRate) wCached).world = wCached ∧
    (run_backtest_handler_eff (fun _ => some dfGood) (fun _ w1 => (w1, mGood))
        (fun _ _ _ _ w1 => (.ok (.str "stats"), w1))
        (some [("ticker", JValue.str "A")]) wCached).world = wCached :=
  ⟨⟨fun _ _ => rfl, fun _ _ _ _ _ => rfl, rfl⟩,
    (C9_handler_no_own_writes (fun _ => some dfGood) (fun _ w1 => (w1, mGood))
      (fun _ _ _ _ w1 => (.ok (.str "stats"), w1)) (some reqWithRate) wCached).2
      (fun _ _ => rfl) (fun _ _ _ _ _ => rfl),
    (C9_handler_no_own_writes (fun _ => some dfGood) (fun _ w1 => (w1, mGood))
      (fun _ _ _ _ w1 => (.ok (.str "stats"), w1))
      (some [("ticker", JValue.str "A")]) wCached).1 rfl⟩

/-! ## Claim C6: what the load step validates -/

/-- A frame whose timestamp index is out of order and which contains a
non-finite cell, yet has all five required columns. -/
def dfUnordered : DataFrame :=
  ⟨[5, 3],
   [("Open", [.finite 1, .nan]), ("High", [.finite 1, .finite 1]),
    ("Low", [.finite 1, .finite 1]), ("Close", [.finite 1, .finite 1]),
    ("Volume", [.finite 0, .finite 0])]⟩

/-- A frame missing the required `Volume` column. -/
def dfMissing : DataFrame :=
  ⟨[1, 2],
   [("Open", [.finite 1, .finite 1]), ("High", [.finite 1, .finite 1]),
    ("Low", [.finite 1, .finite 1]), ("Close", [.finite 1, .finite 1])]⟩

/-- C6 counterexample: a bar set with an out-of-order timestamp index and a
non-finite (`NaN`) field passes the load step and proceeds all the way to a
completed simulation (HTTP 200) — the claim that such input fails with
`MalformedDataError` before simulation is false on the code, which performs
no timestamp or finiteness validation (src/app.py lines 128-132 and 67). -/
theorem C6_counterexample :
    strictlyIncreasing dfUnordered.index = false ∧
    allFinite dfUnordered = false ∧
    (selectColumns dfUnordered).isOk = true ∧
    (run_backtest_handler (fun _ => some dfUnordered) (fun _ => mGood)
        (fun _ _ _ _ => .ok (.str "stats")) (some reqWithRate) wCached).resp.status = 200 ∧
    (run_backtest_handler (fun _ => some dfUnordered) (fun _ => mGood)
        (fun _ _ _ _ => .ok (.str "stats")) (some reqWithRate) wCached).strategyExecuted = true := by
  exact ⟨rfl, rfl, rfl, rfl, rfl⟩

/-- C6 (amended): the load step of /run_backtest validates only that the
five required columns are present.  A frame with all five columns is
accepted no matter how its timestamps are ordered or whether its cells are
finite; a frame missing a required column fails (pandas `KeyError`,
surfaced via the generic 500) before the `Backtest` object is ever
constructed. -/
theorem C6_load_validation (df : DataFrame) :
    (requiredColumns.all (fun c => (df.cols.lookup c).isSome) = true →
      (selectColumns df).isOk = true) ∧
    (requiredColumns.all (fun c => (df.cols.lookup c).isSome) = false →
      (selectColumns df).isOk = false ∧
      ∀ (modOf : String → PyModule)
        (runBT : Rat → Rat → DataFrame → PyObject → Except String JValue)
        (code : String) (cap : Rat),
        (create_and_execute_strategy modOf runBT code df cap).2 = none ∧
        ((create_and_execute_strategy modOf runBT code df cap).1.isOk = false)) := by
  constructor
  · intro h
    unfold selectColumns
    rw [if_pos h]
    rfl
  · intro h
    have hsel : (selectColumns df).isOk = false := by
      unfold selectColumns
      rw [if_neg (by simp [h])]
      rfl
    refine ⟨hsel, ?_⟩
    intro modOf runBT code cap
    unfold create_and_execute_strategy
    dsimp only
    split
    · exact ⟨rfl, rfl⟩
    · split
      · exact ⟨rfl, rfl⟩
      · rename_i heq
        unfold selectColumns at heq
        rw [if_neg (by simp [h])] at heq
        exact absurd heq (by simp)

/-- C6 witness: the unordered non-finite frame is accepted; the frame
missing `Volume` is rejected before any `Backtest` construction. -/
theorem C6_load_validation_witness :
    (requiredColumns.all (fun c => (dfUnordered.cols.lookup c).isSome) = true ∧
      requiredColumns.all (fun c => (dfMissing.cols.lookup c).isSome) = false) ∧
    (selectColumns dfUnordered).isOk = true ∧
    (selectColumns dfMissing).isOk = false ∧
    (create_and_execute_strategy (fun _ => mGood) (fun _ _ _ _ => .ok (.str "stats"))
      "class UserStrategy(Strategy): pass" dfMissing 1000).2 = none := by
  refine ⟨⟨by decide, by decide⟩, (C6_load_validation dfUnordered).1 (by decide), ?_, ?_⟩
  · exact ((C6_load_validation dfMissing).2 (by decide)).1
  · exact (((C6_load_validation dfMissing).2 (by decide)).2
      (fun _ => mGood) (fun _ _ _ _ => .ok (.str "stats"))
      "class UserStrategy(Strategy): pass" 1000).1

/-! ## Claim C4: equity-curve shape invariants of the simulator -/

theorem fillOrder_curve {σ : Type} (rate price : Rat) (st : SimState σ) (o : Order) :
    (fillOrder rate price st o).curve = st.curve := by
  unfold fillOrder
  split <;> dsimp only <;> split <;> rfl

theorem foldl_fillOrder_curve {σ : Type} (rate price : Rat) (os : List Order) (st : SimState σ) :
    (os.foldl (fillOrder rate price) st).curve = st.curve := by
  induction os generalizing st with
  | nil => rfl
  | cons o os ih => rw [List.foldl_cons, ih, fillOrder_curve]

theorem applyFills_curve {σ : Type} (rate price : Rat) (st : SimState σ) :
    (applyFills rate price st).curve = st.curve := by
  unfold applyFills
  rw [foldl_fillOrder_curve]

theorem stepBar_curve {σ : Type} (strat : Strategy σ) (rate : Rat) (i : Nat)
    (hist : List Bar) (b : Bar) (st : SimState σ) :
    ∃ v, (stepBar strat rate i hist b st).curve = st.curve ++ [(b.ts, v)] := by
  unfold stepBar
  dsimp only
  rw [applyFills_curve]
  exact ⟨_, rfl⟩

theorem runBars_curve {σ : Type} (strat : Strategy σ) (rate : Rat) :
    ∀ (bs : List Bar) (i : Nat) (hist : List Bar) (st : SimState σ),
    ∃ tl, (runBars strat rate bs i hist st).curve = st.curve ++ tl ∧
      tl.map Prod.fst = bs.map Bar.ts := by
  intro bs
  induction bs with
  | nil => intro i hist st; exact ⟨[], by simp [runBars]⟩
  | cons b bs ih =>
    intro i hist st
    obtain ⟨v, hv⟩ := stepBar_curve strat rate i hist b st
    obtain ⟨tl, htl, hmap⟩ := ih (i + 1) (hist ++ [b]) (stepBar strat rate i hist b st)
    refine ⟨(b.ts, v) :: tl, ?_, ?_⟩
    · rw [runBars, htl, hv]
      simp
    · simp [hmap]

/-- C4 (spec-modelled): for every non-empty bar series on which a backtest
completes, the equity curve returned by the spec-modelled simulator has
exactly one entry per bar — length N —, its timestamps are exactly the bar
timestamps in order, and the initial entry is the first bar's timestamp
paired with `initial_capital`. -/
theorem C4_equity_curve {σ : Type} (strat : Strategy σ) (bars : List Bar)
    (b0 : Bar) (rest : List Bar) (initial_capital rate : Rat)
    (h : bars = b0 :: rest) :
    (simulate strat bars initial_capital rate).length = bars.length ∧
    (simulate strat bars initial_capital rate).map Prod.fst = bars.map Bar.ts ∧
    (simulate strat bars initial_capital rate).head? = some (b0.ts, initial_capital) := by
  subst h
  unfold simulate
  dsimp only
  obtain ⟨tl, htl, hmap⟩ := runBars_curve strat rate rest 1 [b0]
    ⟨initial_capital, 0, 0, [], strat.init, [(b0.ts, initial_capital)]⟩
  have hlen : tl.length = rest.length := by
    have hc := congrArg List.length hmap
    simpa using hc
  refine ⟨?_, ?_, ?_⟩
  · rw [htl]; simp [hlen]
  · rw [htl]; simp [hmap]
  · rw [htl]; simp

/-- A strategy that never issues orders, used as a concrete simulator
input. -/
def idleStrategy : Strategy Unit := ⟨(), fun s _ _ => (s, [])⟩

/-- C4 witness: a two-bar series produces a two-entry curve whose
timestamps are the bar timestamps and whose first entry carries the initial
capital. -/
theorem C4_equity_curve_witness :
    (([⟨0, 1, 1, 1, 1, 0⟩, ⟨1, 1, 1, 1, 1, 0⟩] : List Bar) =
      ⟨0, 1, 1, 1, 1, 0⟩ :: [⟨1, 1, 1, 1, 1, 0⟩]) ∧
    (simulate idleStrategy [⟨0, 1, 1, 1, 1, 0⟩, ⟨1, 1, 1, 1, 1, 0⟩] 100 (2 / 1000)).length =
      ([⟨0, 1, 1, 1, 1, 0⟩, ⟨1, 1, 1, 1, 1, 0⟩] : List Bar).length ∧
    (simulate idleStrategy [⟨0, 1, 1, 1, 1, 0⟩, ⟨1, 1, 1, 1, 1, 0⟩] 100 (2 / 1000)).map Prod.fst =
      ([⟨0, 1, 1, 1, 1, 0⟩, ⟨1, 1, 1, 1, 1, 0⟩] : List Bar).map Bar.ts ∧
    (simulate idleStrategy [⟨0, 1, 1, 1, 1, 0⟩, ⟨1, 1, 1, 1, 1, 0⟩] 100 (2 / 1000)).head? =
      some ((0 : Int), (100 : Rat)) :=
  ⟨rfl, C4_equity_curve idleStrategy _ ⟨0, 1, 1, 1, 1, 0⟩ [⟨1, 1, 1, 1, 1, 0⟩] 100 (2 / 1000) rfl⟩

/-! ## Claim C5: beta or "not available" -/

theorem returnsOf_replicate (c : Rat) :
    (n : Nat) → returnsOf (List.replicate n c) = List.replicate (n - 1) (c / c - 1)
  | 0 => rfl
  | 1 => rfl
  | (n + 2) => by
    have ih := returnsOf_replicate c (n + 1)
    show returnsOf (c :: c :: List.replicate n c) = List.replicate (n + 1) (c / c - 1)
    rw [returnsOf]
    have h1 : returnsOf (c :: List.replicate n c) = List.replicate n (c / c - 1) := by
      simpa [List.replicate_succ] using ih
    rw [h1, List.replicate_succ]

theorem variance_replicate (x : Rat) (n : Nat) : variance (List.replicate n x) = 0 := by
  cases n with
  | zero => simp [variance]
  | succ k =>
    have hmean : mean (List.replicate (k + 1) x) = x := by
      rw [mean, List.sum_replicate, List.length_replicate, nsmul_eq_mul,
        mul_div_cancel_left₀]
      exact Nat.cast_ne_zero.mpr (Nat.succ_ne_zero k)
    simp [variance, hmean, List.map_replicate, List.sum_replicate]

/-- C5 (spec-modelled): whenever the benchmark has at least two points and
its return series has non-zero variance, `beta_or_na` reports exactly
covariance(strategy returns, benchmark returns) divided by
variance(benchmark returns); whenever that variance is zero it reports
"not available" (`none`) rather than any computed value — in particular on
every constant (zero-variance) benchmark of any length. -/
theorem C5_beta_or_na (equity bench : List Rat) :
    (2 ≤ bench.length → variance (returnsOf bench) ≠ 0 →
      beta_or_na equity bench =
        some (covariance (returnsOf equity) (returnsOf bench) / variance (returnsOf bench))) ∧
    (variance (returnsOf bench) = 0 → beta_or_na equity bench = none) ∧
    (∀ (n : Nat) (c : Rat), beta_or_na equity (List.replicate n c) = none) := by
  refine ⟨?_, ?_, ?_⟩
  · intro h1 h2
    simp only [beta_or_na]
    rw [if_pos ⟨h1, h2⟩]
  · intro h
    simp only [beta_or_na]
    rw [if_neg]
    rintro ⟨-, hne⟩
    exact hne h
  · intro n c
    have h1 : variance (returnsOf (List.replicate n c)) = 0 := by
      rw [returnsOf_replicate]
      exact variance_replicate _ _
    simp only [beta_or_na]
    rw [if_neg]
    rintro ⟨-, hne⟩
    exact hne h1

unseal Rat.add Rat.mul Rat.inv Rat.sub in
/-- C5 witness: on the benchmark `[1, 2, 1]` (two-plus points, non-zero
return variance) beta is the covariance/variance ratio; on the constant
benchmark `[5, 5]` (zero variance) the report is "not available". -/
theorem C5_beta_or_na_witness :
    (2 ≤ ([1, 2, 1] : List Rat).length ∧ variance (returnsOf [1, 2, 1]) ≠ 0 ∧
      variance (returnsOf [(5 : Rat), 5]) = 0) ∧
    beta_or_na [1, 2] [1, 2, 1] =
      some (covariance (returnsOf [1, 2]) (returnsOf [1, 2, 1]) / variance (returnsOf [1, 2, 1])) ∧
    beta_or_na [1, 2] [(5 : Rat), 5] = none :=
  ⟨⟨by decide, by decide, by decide⟩,
    (C5_beta_or_na [1, 2] [1, 2, 1]).1 (by decide) (by decide),
    (C5_beta_or_na [1, 2] [(5 : Rat), 5]).2.1 (by decide)⟩

/-! ## Claim C10: store_results / display_results round trip -/

theorem jget_store_ticker (a b c d : JValue) :
    jget [("ticker", a), ("period", b), ("capital", c), ("results", d)] "ticker" = a := rfl

theorem jget_store_period (a b c d : JValue) :
    jget [("ticker", a), ("period", b), ("capital", c), ("results", d)] "period" = b := rfl

theorem jget_store_capital (a b c d : JValue) :
    jget [("ticker", a), ("period", b), ("capital", c), ("results", d)] "capital" = c := rfl

theorem jget_store_results (a b c d : JValue) :
    jget [("ticker", a), ("period", b), ("capital", c), ("results", d)] "results" = d := rfl

/-- C10: with the result store modelled as a key-value map keyed by
(Ticker, Period), a successful `store_results(ticker, period, capital,
results)` followed by `display_results(ticker, period)` returns HTTP 200
with an item whose `Ticker` is the ticker, `Period` the period, `Capital`
the decimal-string form `str(capital)` of the capital, and `Results` the
JSON-serialized string `json.dumps(results)` — not the original object. -/
theorem C10_store_display_roundtrip (w : World) (t p start_date end_date : String)
    (c : Int) (res : JValue)
    (ht : falsy (.str t) = false) (hp : falsy (.str p) = false)
    (hc : falsy (.num c) = false) (hres : falsy res = false)
    (hsplit : pysplit ':' p = [start_date, end_date]) :
    (store_results_handler (some [("ticker", JValue.str t), ("period", JValue.str p),
        ("capital", JValue.num c), ("results", res)]) w).1.status = 200 ∧
    (display_results_handler (some [("ticker", JValue.str t), ("period", JValue.str p)])
        (store_results_handler (some [("ticker", JValue.str t), ("period", JValue.str p),
          ("capital", JValue.num c), ("results", res)]) w).2).1.status = 200 ∧
    (display_results_handler (some [("ticker", JValue.str t), ("period", JValue.str p)])
        (store_results_handler (some [("ticker", JValue.str t), ("period", JValue.str p),
          ("capital", JValue.num c), ("results", res)]) w).2).1.body =
      .obj [("Ticker", .str t), ("Period", .str p), ("StartDate", .str start_date),
        ("EndDate", .str end_date), ("Capital", .str (toString c)),
        ("Results", .str (dumps res))] := by
  have hstore :
      store_results_handler (some [("ticker", JValue.str t), ("period", JValue.str p),
        ("capital", JValue.num c), ("results", res)]) w =
      (⟨200, .obj [("message", .str "Results stored in DynamoDB")]⟩,
        w.putItem (t, p)
          [("Ticker", .S t), ("Period", .S p), ("StartDate", .S start_date),
            ("EndDate", .S end_date), ("Capital", .N (toString c)),
            ("Results", .S (dumps res))]) := by
    unfold store_results_handler
    simp only [jget_store_ticker, jget_store_period, jget_store_capital, jget_store_results,
      List.isEmpty_cons, ht, hp, hc, hres, Bool.or_self, Bool.or_false, Bool.false_or,
      Bool.false_eq_true, if_false, hsplit]
    rfl
  rw [hstore]
  refine ⟨rfl, ?_, ?_⟩ <;>
  · unfold display_results_handler
    simp only [jget_fd_ticker, jget_fd_period, List.isEmpty_cons, ht, hp,
      Bool.or_self, Bool.or_false, Bool.false_or, Bool.false_eq_true, if_false]
    simp only [pyStr, World.putItem]
    simp [AttrValue.payload]

/-- C10 witness: storing `("AAPL", "2020:2021", 1000, {"returns": 5})` and
then displaying `("AAPL", "2020:2021")` yields the stored strings, with
`Capital = "1000"` and `Results` the serialized JSON text. -/
theorem C10_store_display_roundtrip_witness :
    (falsy (.str "AAPL") = false ∧ falsy (.str "2020:2021") = false ∧
      falsy (.num 1000) = false ∧ falsy (JValue.obj [("returns", .num 5)]) = false ∧
      pysplit ':' "2020:2021" = ["2020", "2021"]) ∧
    (display_results_handler (some [("ticker", JValue.str "AAPL"), ("period", JValue.str "2020:2021")])
        (store_results_handler (some [("ticker", JValue.str "AAPL"), ("period", JValue.str "2020:2021"),
          ("capital", JValue.num 1000), ("results", JValue.obj [("returns", .num 5)])])
          ⟨fun _ => none, fun _ => none⟩).2).1.body =
      .obj [("Ticker", .str "AAPL"), ("Period", .str "2020:2021"), ("StartDate", .str "2020"),
        ("EndDate", .str "2021"), ("Capital", .str (toString (1000 : Int))),
        ("Results", .str (dumps (JValue.obj [("returns", .num 5)])))] :=
  ⟨⟨by decide, by decide, by decide, by decide, by decide⟩,
    (C10_store_display_roundtrip ⟨fun _ => none, fun _ => none⟩ "AAPL" "2020:2021" "2020" "2021"
      1000 (JValue.obj [("returns", .num 5)]) (by decide) (by decide) (by decide) (by decide)
      (by decide)).2.2⟩

end FlaskApp
